import Mathlib

set_option maxRecDepth 4000

/-!
Shallow embedding of the worker-telemetry aggregation, refresh scheduling and
formatting logic of the `dtop` repository (`src/dtop/workers.py`, with the
earlier near-duplicate `src/dask_top/workers.py`), together with theorems
checking the specified properties.

Conventions of the embedding:
* Python `int` is `ℤ`, Python `float` is `ℚ` (all numeric literals involved
  are exactly representable, e.g. `1e9 = 10^9`, `0.75 = 3/4`).
* A Python expression that may raise is embedded as `Except Unit _` or
  `Option _`: `Except.error ()` / `none` means the exception was raised and
  propagates to the caller.
* Python f-string pieces are embedded as explicit string concatenation;
  `"{x:.2f}"` is `format2f` below.
-/

/-- Severity tiers named by the spec; in the source a tier is a colour tag:
the `dask_top` palette maps `low_util`/`medium_util`/`high_util` to
green/yellow/red, and `dtop` emits the raw colour codes `"${2}"`, `"${3}"`,
`"${1}"` directly.  Tier identity is colour identity. -/
inductive Tier where
  | neutral
  | low
  | medium
  | high
  | overloaded
deriving DecidableEq

/-- `WorkerInfoModel` (src/dtop/workers.py lines 29-52): the normalized
record for one worker. -/
structure WorkerInfoModel where
  addr : String
  max_memory : ℤ
  current_memory : ℤ
  cpu : ℚ
  fds : ℤ
  executing : ℤ
  in_memory : ℤ
  ready : ℤ
  in_flight : ℤ
deriving DecidableEq

/-- `WorkerInfoModel.memory_util` (line 77-80): `current_memory / max_memory`.
Python raises `ZeroDivisionError` when `max_memory = 0`; here `ℚ` division is
total (`x / 0 = 0`), so theorems that depend on the quotient carry a
`max_memory > 0` hypothesis where it matters. -/
def memory_util (w : WorkerInfoModel) : ℚ :=
  (w.current_memory : ℚ) / (w.max_memory : ℚ)

/-- One raw entry of `client.scheduler_info()['workers']`: an untyped dict.
A field that the dict is missing is `none`; reading it raises `KeyError`. -/
structure RawInfo where
  memory_limit : Option ℤ
  memory : Option ℤ
  cpu : Option ℚ
  num_fds : Option ℤ
  executing : Option ℤ
  in_memory : Option ℤ
  ready : Option ℤ
  in_flight : Option ℤ

/-- `WorkerInfoModel.from_worker` (lines 54-75): reads the eight required
keys of the info dict and builds the record.  Any missing key raises
`KeyError` (`Except.error ()`); there is no further validation (in
particular `memory_limit` is not checked against `0`). -/
def from_worker (addr : String) (info : RawInfo) : Except Unit WorkerInfoModel :=
  match info.memory_limit, info.memory, info.cpu, info.num_fds,
      info.executing, info.in_memory, info.ready, info.in_flight with
  | some memory_limit, some memory, some cpu, some num_fds,
    some executing, some in_memory, some ready, some in_flight =>
    .ok ⟨addr, memory_limit, memory, cpu, num_fds, executing, in_memory, ready, in_flight⟩
  | _, _, _, _, _, _, _, _ => .error ()

/-- The list comprehension in `WorkerInfoManager._refresh` (line 99):
build one record per fetch entry, in the iteration order of the fetched
mapping; the first entry whose `from_worker` raises aborts the whole
comprehension. -/
def buildWorkers : List (String × RawInfo) → Except Unit (List WorkerInfoModel)
  | [] => .ok []
  | (addr, info) :: rest =>
    match from_worker addr info with
    | .error e => .error e
    | .ok w =>
      match buildWorkers rest with
      | .error e => .error e
      | .ok ws => .ok (w :: ws)

/-- Outcome of one `WorkerInfoManager._refresh` call: the resulting
`self.workers` and whether a Python exception escaped `_refresh` (there is
no `try`/`except` in the method). -/
structure RefreshOutcome where
  workers : List WorkerInfoModel
  raised : Bool
deriving DecidableEq

/-- `WorkerInfoManager._refresh` (lines 96-99).  `fetch = none` models the
`scheduler_info()` call itself raising (source unreachable / malformed
top-level response).  On any raise, `self.workers` keeps its previous value
because the assignment on line 99 only happens after the whole comprehension
succeeds; the exception propagates (`raised = true`). -/
def refreshStep (fetch : Option (List (String × RawInfo)))
    (prev : List WorkerInfoModel) : RefreshOutcome :=
  match fetch with
  | none => ⟨prev, true⟩
  | some entries =>
    match buildWorkers entries with
    | .ok ws => ⟨ws, false⟩
    | .error _ => ⟨prev, true⟩

/-- `WorkerInfoManager.worker_count` (lines 101-104): `len(self.workers)`. -/
def worker_count (ws : List WorkerInfoModel) : ℕ :=
  ws.length

/-- Render a nonnegative integer number of hundredths as a decimal with two
fractional digits (the digits Python prints for an exact value). -/
def format2fInt (n : ℤ) : String :=
  toString (n / 100) ++ "." ++
    (if n % 100 < 10 then "0" ++ toString (n % 100) else toString (n % 100))

/-- Python's `f'{q:.2f}'` for the nonnegative rationals produced by this
program: round to the nearest hundredth and print two fractional digits
(all inputs in the claims are exactly representable, so binary rounding
never changes the printed digits). -/
def format2f (q : ℚ) : String :=
  format2fInt (round (q * 100))

/-- `WorkerInfoScene._get_human_readable_byte_count` (lines 256-273):
GB if `byte_count / 1e9 > 1`, else MB if `byte_count / 1e6 > 1`, else the
function falls off the end and returns Python `None` (here `none`);
the source's `gigabytes`/`megabytes` locals are inlined. -/
def get_human_readable_byte_count (byte_count : ℤ) : Option String :=
  if (byte_count : ℚ) / 1000000000 > 1 then
    some (format2f ((byte_count : ℚ) / 1000000000) ++ " GB")
  else if (byte_count : ℚ) / 1000000 > 1 then
    some (format2f ((byte_count : ℚ) / 1000000) ++ " MB")
  else none

/-- Python string interpolation of an optional value: `None` prints as
the four characters `None`. -/
def pyStr : Option String → String
  | some s => s
  | none => "None"

/-- The text of the memory cell, shared verbatim by
`WorkerInfoScene._format_mem` (line 309) and
`WorkerInfoView._get_memory_label` (line 120):
`f'{memory_perc * 100:.2f}% ({mem_used}/{mem_total})'`. -/
def mem_cell_text (w : WorkerInfoModel) : String :=
  let memory_perc := memory_util w
  let mem_used := pyStr (get_human_readable_byte_count w.current_memory)
  let mem_total := pyStr (get_human_readable_byte_count w.max_memory)
  format2f (memory_perc * 100) ++ "% (" ++ mem_used ++ "/" ++ mem_total ++ ")"

/-- The severity tier assigned by `WorkerInfoView._get_memory_label`
(src/dask_top/workers.py lines 121-126): `low_util` if `0 < util < 0.5`,
`medium_util` if `0.5 <= util < 0.75`, `high_util` if `0.75 <= util <= 1.0`,
otherwise the label keeps the default (neutral) colour. -/
def get_memory_label_tier (memory_perc : ℚ) : Tier :=
  if 0 < memory_perc ∧ memory_perc < 0.5 then .low
  else if 0.5 ≤ memory_perc ∧ memory_perc < 0.75 then .medium
  else if 0.75 ≤ memory_perc ∧ memory_perc ≤ 1.0 then .high
  else .neutral

/-- `WorkerInfoScene._format_mem` (lines 296-315): colour code prepended to
the cell text.  Note: unlike `dask_top`, this version has no `low` branch —
`0 < util < 0.5` keeps the empty colour string. -/
def format_mem (w : WorkerInfoModel) : String :=
  let memory_perc := memory_util w
  let color :=
    if 0.5 ≤ memory_perc ∧ memory_perc < 0.75 then "${3}"
    else if 0.75 ≤ memory_perc ∧ memory_perc ≤ 1.0 then "${1}"
    else ""
  color ++ mem_cell_text w

/-- The colour-code selection of `WorkerInfoScene._format_cpu`
(lines 276-294); the method returns `f'{color}{cpu_perc}'`. -/
def format_cpu_color (cpu_perc : ℚ) : String :=
  if 40 ≤ cpu_perc ∧ cpu_perc < 75 then "${3}"
  else if 75 ≤ cpu_perc ∧ cpu_perc ≤ 100 then "${1}"
  else if 100 < cpu_perc then "${2}"
  else ""

/-- Colour code to severity tier: `"${3}"` (yellow) is `medium`, `"${1}"`
(red) is `high`, `"${2}"` (the colour used only by the over-100 CPU branch)
is the fourth, distinct tier `overloaded`; the empty colour is neutral. -/
def tierOfColour : String → Tier
  | "${3}" => .medium
  | "${1}" => .high
  | "${2}" => .overloaded
  | _ => .neutral

/-- The severity tier of the CPU cell. -/
def format_cpu_tier (cpu_perc : ℚ) : Tier :=
  tierOfColour (format_cpu_color cpu_perc)

/-- The rollup accumulators of `WorkerInfoScene._update` (lines 192-198),
re-initialized to zero on every refresh. -/
structure Totals where
  cpu_total : ℚ
  mem_total : ℚ
  fds_total : ℤ
  exec_total : ℤ
  in_mem_total : ℤ
  ready_total : ℤ
  in_flight_total : ℤ
deriving DecidableEq

/-- One iteration of the accumulation loop (lines 216-222). -/
def totalsStep (t : Totals) (w : WorkerInfoModel) : Totals :=
  ⟨t.cpu_total + w.cpu, t.mem_total + memory_util w, t.fds_total + w.fds,
   t.exec_total + w.executing, t.in_mem_total + w.in_memory,
   t.ready_total + w.ready, t.in_flight_total + w.in_flight⟩

/-- The full accumulation loop of `_update`: all accumulators start at zero
inside the refresh branch, so the totals are a function of the current
worker list only — nothing is carried over from previous cycles. -/
def computeTotals (ws : List WorkerInfoModel) : Totals :=
  ws.foldl totalsStep ⟨0, 0, 0, 0, 0, 0, 0⟩

/-- The rollup row built at lines 227-243:
`[str(num_workers), f'{cpu_total / num_workers:.2f}',
f'{mem_total / num_workers * 100:.2f}%', str(fds_total), ...]`.
When `num_workers = 0` the division `cpu_total / num_workers` raises
`ZeroDivisionError`, so no row is produced (`none`). -/
def rollupRow (ws : List WorkerInfoModel) : Option (List String) :=
  let t := computeTotals ws
  let num_workers := worker_count ws
  if num_workers = 0 then none
  else
    some [toString num_workers,
          format2f (t.cpu_total / (num_workers : ℚ)),
          format2f (t.mem_total / (num_workers : ℚ) * 100) ++ "%",
          toString t.fds_total,
          toString t.exec_total,
          toString t.in_mem_total,
          toString t.ready_total,
          toString t.in_flight_total]

/-- `WorkerInfoScene.frame_update_count` (lines 246-254): always 20. -/
def frame_update_count : ℕ := 20

/-- The refresh condition of `WorkerInfoScene._update` (line 187):
`frame_no - self._last_frame >= self.frame_update_count or self._last_frame == 0`. -/
def shouldRefresh (last_frame : ℤ) (frame_no : ℕ) : Bool :=
  decide ((frame_update_count : ℤ) ≤ (frame_no : ℤ) - last_frame) || decide (last_frame = 0)

/-- The effect of one `_update` call on `self._last_frame` (line 189): set to
`frame_no` exactly when the refresh fires. -/
def stepLast (last_frame : ℤ) (frame_no : ℕ) : ℤ :=
  if shouldRefresh last_frame frame_no then (frame_no : ℤ) else last_frame

/-- `self._last_frame` just before tick `n` of the consecutive tick stream
`0, 1, 2, …` (the constructor sets `self._last_frame = 0`). -/
def lastAfter : ℕ → ℤ
  | 0 => 0
  | n + 1 => stepLast (lastAfter n) n

/-- Whether the refresh fires on tick `n` of the consecutive tick stream. -/
def firesAt (n : ℕ) : Bool :=
  shouldRefresh (lastAfter n) n

/-! ### Concrete sample data used by counterexamples and witnesses -/

/-- A fully populated fetch entry (memory_limit 1 GB, memory 250 MB). -/
def sampleInfo : RawInfo :=
  ⟨some 1000000000, some 250000000, some 10, some 4, some 1, some 2, some 3, some 0⟩

/-- The record `from_worker` builds from `sampleInfo` at address `"a"`. -/
def sampleWorker : WorkerInfoModel :=
  ⟨"a", 1000000000, 250000000, 10, 4, 1, 2, 3, 0⟩

/-- A fetch entry whose dict is missing the `metrics['cpu']` key. -/
def missingCpuInfo : RawInfo :=
  ⟨some 1000000000, some 250000000, none, some 4, some 1, some 2, some 3, some 0⟩

/-- A fetch entry with `memory_limit = 0` and every required key present. -/
def zeroLimitInfo : RawInfo :=
  ⟨some 0, some 250000000, some 10, some 4, some 1, some 2, some 3, some 0⟩

/-- A worker at exactly 75% memory utilization (750 MB of 1 GB). -/
def exampleWorker75 : WorkerInfoModel :=
  ⟨"w", 1000000000, 750000000, 10, 4, 1, 2, 3, 0⟩

/-- A worker whose memory usage is below the 1 MB formatting threshold. -/
def smallWorker : WorkerInfoModel :=
  ⟨"s", 2000000000, 500000, 10, 4, 1, 2, 3, 0⟩

/-! ### Helper lemmas -/

/-- Rendering `format2f` once the argument times 100 is a known integer. -/
lemma format2f_eq_of_mul_eq {q : ℚ} {n : ℤ} (h : q * 100 = (n : ℚ)) :
    format2f q = format2fInt n := by
  rw [format2f, h, round_intCast]

/-- A successfully built record keeps the address it was built from. -/
lemma from_worker_addr {addr : String} {info : RawInfo} {w : WorkerInfoModel}
    (h : from_worker addr info = .ok w) : w.addr = addr := by
  unfold from_worker at h
  split at h
  · injection h with h
    subst h
    rfl
  · exact Except.noConfusion h

/-- If any fetched entry raises inside `from_worker`, the whole list
comprehension raises. -/
lemma buildWorkers_error_of_mem {entries : List (String × RawInfo)}
    {e : String × RawInfo} (he : e ∈ entries) (hf : from_worker e.1 e.2 = .error ()) :
    buildWorkers entries = .error () := by
  induction entries with
  | nil => cases he
  | cons hd tl ih =>
    obtain ⟨addr, info⟩ := hd
    rcases List.mem_cons.mp he with rfl | hmem
    · have hf' : from_worker addr info = .error () := hf
      simp only [buildWorkers, hf']
    · cases h1 : from_worker addr info with
      | error err => simp only [buildWorkers, h1]
      | ok w => simp only [buildWorkers, h1, ih hmem]

/-! ### Claims -/

/-- Claim C1 (code_bug): with zero workers the rollup computation does not
succeed — `cpu_total / num_workers` raises `ZeroDivisionError`, so no rollup
row is produced at all, instead of a row with all averages and sums `0`. -/
theorem rollupRow_empty_raises : rollupRow [] = none := rfl

/-- Claim C2 (counterexample): when the Telemetry Source call fails,
`_refresh` raises — the exception propagates out of the refresh
(`raised = true`) instead of being converted into a status flag; the
previous worker list is retained only as a side effect of the assignment
never happening. -/
theorem refresh_failure_cex :
    refreshStep none [sampleWorker] = ⟨[sampleWorker], true⟩ := rfl

/-- Claim C2 (amended): when the Telemetry Source call fails (`fetch = none`)
or any fetched entry is malformed, `WorkerInfoManager._refresh` leaves
`self.workers` at the prior snapshot (the assignment happens only after a
fully successful rebuild) but the exception propagates out of the refresh
cycle into the render loop; no `SourceUnavailable` error type and no failure
status flag exist in the code. -/
theorem refresh_failure_retains_prev :
    (∀ prev, refreshStep none prev = ⟨prev, true⟩) ∧
      (∀ prev entries (e : String × RawInfo), e ∈ entries →
        from_worker e.1 e.2 = .error () →
        refreshStep (some entries) prev = ⟨prev, true⟩) := by
  constructor
  · intro prev
    rfl
  · intro prev entries e he hf
    simp only [refreshStep, buildWorkers_error_of_mem he hf]

/-- Witness for C2's amended theorem at concrete inputs. -/
theorem refresh_failure_retains_prev_witness :
    refreshStep none [sampleWorker, exampleWorker75] = ⟨[sampleWorker, exampleWorker75], true⟩ ∧
      refreshStep (some [("x", missingCpuInfo)]) [smallWorker] = ⟨[smallWorker], true⟩ :=
  ⟨refresh_failure_retains_prev.1 [sampleWorker, exampleWorker75],
   refresh_failure_retains_prev.2 [smallWorker] [("x", missingCpuInfo)]
     ("x", missingCpuInfo) (List.mem_singleton.mpr rfl) rfl⟩

/-- Claim C4 (counterexample): entries fetched in the order `"b", "a"`
produce records in exactly that order even though `"a" < "b"` — the refresh
applies no sorting by address. -/
theorem worker_order_cex :
    (refreshStep (some [("b", sampleInfo), ("a", sampleInfo)]) []).workers.map
        (fun w => w.addr) = ["b", "a"] ∧ "a" < "b" := by
  constructor
  · rfl
  · rw [String.lt_iff_toList_lt]
    decide

/-- Claim C4 (amended): the produced record sequence preserves the iteration
order of the fetched mapping (dict insertion order): the addresses of the
built records are exactly the fetched addresses in fetch order, with no
reordering by address string. -/
theorem worker_order_insertion :
    ∀ (entries : List (String × RawInfo)) (ws : List WorkerInfoModel),
      buildWorkers entries = .ok ws →
      ws.map (fun w => w.addr) = entries.map Prod.fst := by
  intro entries
  induction entries with
  | nil =>
    intro ws h
    simp only [buildWorkers] at h
    injection h with h
    subst h
    rfl
  | cons hd tl ih =>
    obtain ⟨addr, info⟩ := hd
    intro ws h
    cases h1 : from_worker addr info with
    | error err =>
      simp only [buildWorkers, h1] at h
      exact Except.noConfusion h
    | ok w =>
      cases h2 : buildWorkers tl with
      | error err =>
        simp only [buildWorkers, h1, h2] at h
        exact Except.noConfusion h
      | ok ws' =>
        simp only [buildWorkers, h1, h2, Except.ok.injEq] at h
        subst h
        simp only [List.map_cons]
        rw [from_worker_addr h1, ih ws' h2]

/-- Witness for C4's amended theorem at a concrete fetch. -/
theorem worker_order_insertion_witness :
    List.map (fun w => w.addr) [sampleWorker] = List.map Prod.fst [("a", sampleInfo)] :=
  worker_order_insertion [("a", sampleInfo)] [sampleWorker] rfl

/-- Claim C6 (counterexample): a malformed entry is not dropped — it aborts
the whole refresh (`KeyError`), so the well-formed entry after it produces
no record; and an entry with `memory_limit = 0` passes validation-free into
a record.  No `skipped_count` diagnostic exists in the code. -/
theorem validation_cex :
    buildWorkers [("a", missingCpuInfo), ("b", sampleInfo)] = .error () ∧
      from_worker "c" zeroLimitInfo = .ok ⟨"c", 0, 250000000, 10, 4, 1, 2, 3, 0⟩ :=
  ⟨rfl, rfl⟩

/-- Claim C6 (amended): `from_worker` checks nothing beyond key presence:
every fully populated entry is accepted, including one with
`memory_limit ≤ 0`; a single entry missing a required key aborts the entire
comprehension with `KeyError` instead of being dropped and counted. -/
theorem validation_behavior :
    (∀ (addr : String) (ml mem fds ex im rd fl : ℤ) (cpu : ℚ),
        from_worker addr ⟨some ml, some mem, some cpu, some fds, some ex, some im, some rd, some fl⟩ =
          .ok ⟨addr, ml, mem, cpu, fds, ex, im, rd, fl⟩) ∧
      (∀ entries : List (String × RawInfo),
        (∃ e ∈ entries, from_worker e.1 e.2 = .error ()) →
        buildWorkers entries = .error ()) := by
  constructor
  · intro addr ml mem fds ex im rd fl cpu
    rfl
  · rintro entries ⟨e, he, hf⟩
    exact buildWorkers_error_of_mem he hf

/-- Witness for C6's amended theorem at concrete inputs (zero memory limit
accepted; a missing key aborts the refresh). -/
theorem validation_behavior_witness :
    from_worker "z" ⟨some 0, some 5, some 1, some 2, some 3, some 4, some 5, some 6⟩ =
        .ok ⟨"z", 0, 5, 1, 2, 3, 4, 5, 6⟩ ∧
      buildWorkers [("y", missingCpuInfo)] = .error () :=
  ⟨validation_behavior.1 "z" 0 5 2 3 4 5 6 1,
   validation_behavior.2 [("y", missingCpuInfo)]
     ⟨("y", missingCpuInfo), List.mem_singleton.mpr rfl, rfl⟩⟩

/-- The accumulation loop, generalized over the starting accumulator. -/
lemma foldl_totalsStep (ws : List WorkerInfoModel) : ∀ t : Totals,
    (ws.foldl totalsStep t).cpu_total = t.cpu_total + (ws.map (fun w => w.cpu)).sum ∧
    (ws.foldl totalsStep t).mem_total = t.mem_total + (ws.map (fun w => memory_util w)).sum ∧
    (ws.foldl totalsStep t).fds_total = t.fds_total + (ws.map (fun w => w.fds)).sum ∧
    (ws.foldl totalsStep t).exec_total = t.exec_total + (ws.map (fun w => w.executing)).sum ∧
    (ws.foldl totalsStep t).in_mem_total = t.in_mem_total + (ws.map (fun w => w.in_memory)).sum ∧
    (ws.foldl totalsStep t).ready_total = t.ready_total + (ws.map (fun w => w.ready)).sum ∧
    (ws.foldl totalsStep t).in_flight_total = t.in_flight_total + (ws.map (fun w => w.in_flight)).sum := by
  induction ws with
  | nil => intro t; simp
  | cons w ws ih =>
    intro t
    obtain ⟨h1, h2, h3, h4, h5, h6, h7⟩ := ih (totalsStep t w)
    refine ⟨?_, ?_, ?_, ?_, ?_, ?_, ?_⟩ <;>
      simp only [List.foldl_cons, List.map_cons, List.sum_cons]
    · rw [h1]; simp only [totalsStep]; ring
    · rw [h2]; simp only [totalsStep]; ring
    · rw [h3]; simp only [totalsStep]; ring
    · rw [h4]; simp only [totalsStep]; ring
    · rw [h5]; simp only [totalsStep]; ring
    · rw [h6]; simp only [totalsStep]; ring
    · rw [h7]; simp only [totalsStep]; ring

/-- Claim C9: the rollup is recomputed from scratch from the current worker
list on every cycle: `worker_count` is the list length and every sum
accumulator of `computeTotals` equals the arithmetic sum of that field over
exactly the current records (the accumulators start at zero inside the
refresh branch, so nothing carries over from a previous cycle). -/
theorem rollup_sums_spec (ws : List WorkerInfoModel) :
    worker_count ws = ws.length ∧
    (computeTotals ws).fds_total = (ws.map (fun w => w.fds)).sum ∧
    (computeTotals ws).exec_total = (ws.map (fun w => w.executing)).sum ∧
    (computeTotals ws).in_mem_total = (ws.map (fun w => w.in_memory)).sum ∧
    (computeTotals ws).ready_total = (ws.map (fun w => w.ready)).sum ∧
    (computeTotals ws).in_flight_total = (ws.map (fun w => w.in_flight)).sum := by
  obtain ⟨h1, h2, h3, h4, h5, h6, h7⟩ := foldl_totalsStep ws ⟨0, 0, 0, 0, 0, 0, 0⟩
  exact ⟨rfl, by simpa [computeTotals] using h3, by simpa [computeTotals] using h4,
    by simpa [computeTotals] using h5, by simpa [computeTotals] using h6,
    by simpa [computeTotals] using h7⟩

/-- The refresh condition, read as a proposition. -/
lemma shouldRefresh_eq_true_iff (l : ℤ) (n : ℕ) :
    shouldRefresh l n = true ↔ 20 ≤ (n : ℤ) - l ∨ l = 0 := by
  simp [shouldRefresh, frame_update_count]

/-- After the tick-0 refresh leaves `_last_frame = 0`, tick 1 re-fires the
cold-start condition and records `_last_frame = 1`. -/
lemma lastAfter_two : lastAfter 2 = 1 := by decide

/-- Invariant of the tick loop from tick 2 on: the recorded
`_last_frame` is congruent to 1 mod 20, lies strictly below the current
tick, and is at most 20 ticks behind it. -/
lemma lastAfter_inv : ∀ n : ℕ, 2 ≤ n →
    (lastAfter n) % 20 = 1 ∧ lastAfter n < (n : ℤ) ∧ (n : ℤ) - lastAfter n ≤ 20 := by
  intro n hn
  induction n, hn using Nat.le_induction with
  | base =>
    rw [lastAfter_two]
    norm_num
  | succ n hn ih =>
    obtain ⟨h1, h2, h3⟩ := ih
    have hstep : lastAfter (n + 1) = stepLast (lastAfter n) n := rfl
    rw [hstep, stepLast]
    split
    · rename_i hc
      rw [shouldRefresh_eq_true_iff] at hc
      push_cast
      omega
    · rename_i hc
      rw [shouldRefresh_eq_true_iff] at hc
      push_cast
      omega

/-- Claim C3 (counterexample): on the consecutive tick stream the refresh
fires on tick 1 (an intervening tick, since `1 - last_refresh_tick = 1 < 20`)
and does not fire on tick 20, contradicting the claimed schedule
`0, 20, 40, …`.  The cause: the tick-0 refresh records `_last_frame = 0`,
which keeps the `_last_frame == 0` cold-start condition armed on tick 1,
after which the period anchors at tick 1. -/
theorem refresh_schedule_cex : firesAt 1 = true ∧ firesAt 20 = false := by
  decide

/-- Claim C3 (amended): on the consecutive tick stream `0, 1, 2, …` with
`frame_update_count = 20`, the refresh fires exactly on tick 0 and on the
ticks congruent to 1 mod 20 (1, 21, 41, …) — not on 20, 40, 60 — and each
firing records `_last_frame = current tick`. -/
theorem refresh_schedule_characterization (n : ℕ) :
    (firesAt n = true ↔ n = 0 ∨ n % 20 = 1) ∧
      (firesAt n = true → lastAfter (n + 1) = (n : ℤ)) := by
  constructor
  · match n with
    | 0 =>
      have h0 : firesAt 0 = true := by decide
      simp [h0]
    | 1 =>
      have h1 : firesAt 1 = true := by decide
      simp [h1]
    | (k + 2) =>
      obtain ⟨h1, h2, h3⟩ := lastAfter_inv (k + 2) (by omega)
      rw [firesAt, shouldRefresh_eq_true_iff]
      constructor
      · rintro (hle | hz)
        · right
          push_cast at h1 h2 h3 hle ⊢
          omega
        · exfalso
          rw [hz] at h1
          norm_num at h1
      · rintro (h | hmod)
        · omega
        · push_cast at h1 h2 h3 ⊢
          omega
  · intro hf
    have hf' : shouldRefresh (lastAfter n) n = true := hf
    show stepLast (lastAfter n) n = (n : ℤ)
    rw [stepLast, if_pos hf']

/-- Witness for C3's amended theorem: tick 21 fires and records
`_last_frame = 21`. -/
theorem refresh_schedule_characterization_witness :
    firesAt 21 = true ∧ lastAfter 22 = (21 : ℤ) := by
  have h := (refresh_schedule_characterization 21).1.mpr (Or.inr (by decide))
  exact ⟨h, (refresh_schedule_characterization 21).2 h⟩

/-- String concatenation is associative (needed to locate a substring inside
the concatenated cell text). -/
lemma string_append_assoc (a b c : String) : a ++ b ++ c = a ++ (b ++ c) := by
  apply String.ext
  simp [String.data_append, List.append_assoc]

/-- Above `10^9` bytes the formatter takes the GB branch. -/
lemma ghrbc_gb {n : ℤ} (h : 1000000000 < n) :
    get_human_readable_byte_count n = some (format2f ((n : ℚ) / 1000000000) ++ " GB") := by
  have hc : (1 : ℚ) < (n : ℚ) / 1000000000 :=
    (one_lt_div (by norm_num)).mpr (by exact_mod_cast h)
  simp only [get_human_readable_byte_count]
  rw [if_pos hc]

/-- Between `10^6` (exclusive) and `10^9` (inclusive — the `> 1` test is
strict) the formatter takes the MB branch. -/
lemma ghrbc_mb {n : ℤ} (h1 : n ≤ 1000000000) (h2 : 1000000 < n) :
    get_human_readable_byte_count n = some (format2f ((n : ℚ) / 1000000) ++ " MB") := by
  have hno : (n : ℚ) / 1000000000 ≤ 1 :=
    (div_le_one (by norm_num)).mpr (by exact_mod_cast h1)
  have hc : (1 : ℚ) < (n : ℚ) / 1000000 :=
    (one_lt_div (by norm_num)).mpr (by exact_mod_cast h2)
  simp only [get_human_readable_byte_count]
  rw [if_neg (not_lt.mpr hno), if_pos hc]

/-- At or below `10^6` bytes both branches fail and Python returns `None`. -/
lemma ghrbc_none {n : ℤ} (h : n ≤ 1000000) :
    get_human_readable_byte_count n = none := by
  have hno1 : (n : ℚ) / 1000000000 ≤ 1 :=
    (div_le_one (by norm_num)).mpr (by exact_mod_cast h.trans (by norm_num))
  have hno2 : (n : ℚ) / 1000000 ≤ 1 :=
    (div_le_one (by norm_num)).mpr (by exact_mod_cast h)
  simp only [get_human_readable_byte_count]
  rw [if_neg (not_lt.mpr hno1), if_neg (not_lt.mpr hno2)]

/-- Claim C5 (counterexample): at `memory_used = 750,000,000` and
`memory_limit = 1,000,000,000` the cell text is
`"75.00% (750.00 MB/1000.00 MB)"`, not the claimed
`"75.00% (750.00 MB/1.00 GB)"`: the limit equals exactly `10^9` bytes, so
the strict `> 1` gigabyte test fails and the limit renders as megabytes. -/
theorem mem_cell_cex :
    mem_cell_text exampleWorker75 = "75.00% (750.00 MB/1000.00 MB)" ∧
      "75.00% (750.00 MB/1000.00 MB)" ≠ "75.00% (750.00 MB/1.00 GB)" := by
  constructor
  · have h1 : exampleWorker75.current_memory = 750000000 := rfl
    have h2 : exampleWorker75.max_memory = 1000000000 := rfl
    have hu : memory_util exampleWorker75 * 100 * 100 = ((7500 : ℤ) : ℚ) := by
      simp only [memory_util, h1, h2]
      push_cast
      norm_num
    simp only [mem_cell_text]
    rw [h1, h2, ghrbc_mb (by norm_num) (by norm_num), ghrbc_mb (by norm_num) (by norm_num),
      format2f_eq_of_mul_eq hu,
      format2f_eq_of_mul_eq (n := 75000) (by push_cast; norm_num),
      format2f_eq_of_mul_eq (n := 100000) (by push_cast; norm_num)]
    decide
  · decide

/-- Claim C5 (amended): the `dask_top` memory formatter assigns the tiers
exactly as claimed (`low` on `0 < util < 0.5`, `medium` on
`0.5 ≤ util < 0.75`, `high` on `0.75 ≤ util ≤ 1.0`, neutral on `util = 0`
or `util > 1.0`), and utilization `0.75` from `memory_used = 750,000,000`,
`memory_limit = 1,000,000,000` is tier `high`; but the rendered string is
`"75.00% (750.00 MB/1000.00 MB)"` because the exact-gigabyte limit fails
the strict `> 1` GB test. -/
theorem mem_tier_and_string :
    (∀ p : ℚ, 0 < p → p < 0.5 → get_memory_label_tier p = Tier.low) ∧
    (∀ p : ℚ, 0.5 ≤ p → p < 0.75 → get_memory_label_tier p = Tier.medium) ∧
    (∀ p : ℚ, 0.75 ≤ p → p ≤ 1.0 → get_memory_label_tier p = Tier.high) ∧
    (∀ p : ℚ, p = 0 ∨ 1.0 < p → get_memory_label_tier p = Tier.neutral) ∧
    get_memory_label_tier (memory_util exampleWorker75) = Tier.high ∧
    mem_cell_text exampleWorker75 = "75.00% (750.00 MB/1000.00 MB)" := by
  refine ⟨?_, ?_, ?_, ?_, ?_, ?_⟩
  · intro p h1 h2
    simp only [get_memory_label_tier]
    rw [if_pos ⟨h1, h2⟩]
  · intro p h1 h2
    simp only [get_memory_label_tier]
    rw [if_neg (by rintro ⟨-, hc⟩; linarith), if_pos ⟨h1, h2⟩]
  · intro p h1 h2
    simp only [get_memory_label_tier]
    rw [if_neg (by rintro ⟨-, hc⟩; linarith), if_neg (by rintro ⟨-, hc⟩; linarith),
      if_pos ⟨h1, h2⟩]
  · intro p h
    rcases h with rfl | h
    · simp only [get_memory_label_tier]
      norm_num
    · simp only [get_memory_label_tier]
      rw [if_neg (by rintro ⟨-, hc⟩; linarith), if_neg (by rintro ⟨-, hc⟩; linarith),
        if_neg (by rintro ⟨-, hc⟩; linarith)]
  · have h1 : exampleWorker75.current_memory = 750000000 := rfl
    have h2 : exampleWorker75.max_memory = 1000000000 := rfl
    have hu : memory_util exampleWorker75 = 3 / 4 := by
      simp only [memory_util, h1, h2]
      norm_num
    rw [hu]
    simp only [get_memory_label_tier]
    norm_num
  · have h1 : exampleWorker75.current_memory = 750000000 := rfl
    have h2 : exampleWorker75.max_memory = 1000000000 := rfl
    have hu : memory_util exampleWorker75 * 100 * 100 = ((7500 : ℤ) : ℚ) := by
      simp only [memory_util, h1, h2]
      push_cast
      norm_num
    simp only [mem_cell_text]
    rw [h1, h2, ghrbc_mb (by norm_num) (by norm_num), ghrbc_mb (by norm_num) (by norm_num),
      format2f_eq_of_mul_eq hu,
      format2f_eq_of_mul_eq (n := 75000) (by push_cast; norm_num),
      format2f_eq_of_mul_eq (n := 100000) (by push_cast; norm_num)]
    decide

/-- Witness for C5's amended theorem at concrete utilizations. -/
theorem mem_tier_and_string_witness :
    get_memory_label_tier (1/4) = Tier.low ∧ get_memory_label_tier (6/10) = Tier.medium ∧
      get_memory_label_tier (8/10) = Tier.high ∧ get_memory_label_tier 2 = Tier.neutral :=
  ⟨mem_tier_and_string.1 (1/4) (by norm_num) (by norm_num),
   mem_tier_and_string.2.1 (6/10) (by norm_num) (by norm_num),
   mem_tier_and_string.2.2.1 (8/10) (by norm_num) (by norm_num),
   mem_tier_and_string.2.2.2.1 2 (Or.inr (by norm_num))⟩

/-- Claim C7: the CPU cell tiering is exactly as claimed — neutral below 40,
`medium` on `40 ≤ v < 75`, `high` on `75 ≤ v ≤ 100`, and the distinct
fourth tier `overloaded` above 100; `cpu_percent = 150` is `overloaded`
while `90` is `high`. -/
theorem cpu_tier_spec :
    (∀ c : ℚ, c < 40 → format_cpu_tier c = Tier.neutral) ∧
    (∀ c : ℚ, 40 ≤ c → c < 75 → format_cpu_tier c = Tier.medium) ∧
    (∀ c : ℚ, 75 ≤ c → c ≤ 100 → format_cpu_tier c = Tier.high) ∧
    (∀ c : ℚ, 100 < c → format_cpu_tier c = Tier.overloaded) ∧
    format_cpu_tier 150 = Tier.overloaded ∧
    format_cpu_tier 90 = Tier.high ∧
    Tier.overloaded ≠ Tier.high := by
  refine ⟨?_, ?_, ?_, ?_, ?_, ?_, by decide⟩
  · intro c h
    simp only [format_cpu_tier, format_cpu_color]
    rw [if_neg (by rintro ⟨hc, -⟩; linarith), if_neg (by rintro ⟨hc, -⟩; linarith),
      if_neg (by intro hc; linarith)]
    decide
  · intro c h1 h2
    simp only [format_cpu_tier, format_cpu_color]
    rw [if_pos ⟨h1, h2⟩]
    decide
  · intro c h1 h2
    simp only [format_cpu_tier, format_cpu_color]
    rw [if_neg (by rintro ⟨-, hc⟩; linarith), if_pos ⟨h1, h2⟩]
    decide
  · intro c h
    simp only [format_cpu_tier, format_cpu_color]
    rw [if_neg (by rintro ⟨-, hc⟩; linarith), if_neg (by rintro ⟨-, hc⟩; linarith), if_pos h]
    decide
  · simp only [format_cpu_tier, format_cpu_color]
    norm_num
    decide
  · simp only [format_cpu_tier, format_cpu_color]
    norm_num
    decide

/-- Witness for C7 at concrete CPU percentages. -/
theorem cpu_tier_spec_witness :
    format_cpu_tier 10 = Tier.neutral ∧ format_cpu_tier 50 = Tier.medium ∧
      format_cpu_tier 95 = Tier.high ∧ format_cpu_tier 130 = Tier.overloaded :=
  ⟨cpu_tier_spec.1 10 (by norm_num), cpu_tier_spec.2.1 50 (by norm_num) (by norm_num),
   cpu_tier_spec.2.2.1 95 (by norm_num) (by norm_num),
   cpu_tier_spec.2.2.2.1 130 (by norm_num)⟩

/-- Claim C8: the byte formatter renders GB exactly when `n / 1e9 > 1`
(equivalently `10^9 < n`), otherwise MB when `n / 1e6 > 1`; in particular
`1_500_000_000` renders as `"1.50 GB"` and `2_500_000` as `"2.50 MB"`. -/
theorem format_bytes_spec :
    (∀ n : ℤ, 1000000000 < n →
      get_human_readable_byte_count n = some (format2f ((n : ℚ) / 1000000000) ++ " GB")) ∧
    (∀ n : ℤ, n ≤ 1000000000 → 1000000 < n →
      get_human_readable_byte_count n = some (format2f ((n : ℚ) / 1000000) ++ " MB")) ∧
    get_human_readable_byte_count 1500000000 = some "1.50 GB" ∧
    get_human_readable_byte_count 2500000 = some "2.50 MB" := by
  refine ⟨fun n h => ghrbc_gb h, fun n h1 h2 => ghrbc_mb h1 h2, ?_, ?_⟩
  · rw [ghrbc_gb (by norm_num), format2f_eq_of_mul_eq (n := 150) (by push_cast; norm_num)]
    decide
  · rw [ghrbc_mb (by norm_num) (by norm_num),
      format2f_eq_of_mul_eq (n := 250) (by push_cast; norm_num)]
    decide

/-- Witness for C8's general branches at concrete byte counts. -/
theorem format_bytes_spec_witness :
    get_human_readable_byte_count 2000000000 =
        some (format2f (((2000000000 : ℤ) : ℚ) / 1000000000) ++ " GB") ∧
      get_human_readable_byte_count 3000000 =
        some (format2f (((3000000 : ℤ) : ℚ) / 1000000) ++ " MB") :=
  ⟨format_bytes_spec.1 2000000000 (by norm_num),
   format_bytes_spec.2.1 3000000 (by norm_num) (by norm_num)⟩

/-- Claim C10: for `n ≤ 10^6` neither strict threshold holds and the byte
formatter returns Python `None`, so the memory cell for such a worker embeds
the literal text `"None"`; and at exactly `n = 10^9` the strict comparison
selects the MB tier, rendering `"1000.00 MB"` rather than gigabytes. -/
theorem format_bytes_none_spec :
    (∀ n : ℤ, n ≤ 1000000 → get_human_readable_byte_count n = none) ∧
    get_human_readable_byte_count 1000000000 = some "1000.00 MB" ∧
    (∀ w : WorkerInfoModel, w.current_memory ≤ 1000000 →
      ∃ a b : String, format_mem w = a ++ "None" ++ b) := by
  refine ⟨fun n h => ghrbc_none h, ?_, ?_⟩
  · rw [ghrbc_mb (by norm_num) (by norm_num),
      format2f_eq_of_mul_eq (n := 100000) (by push_cast; norm_num)]
    decide
  · intro w hw
    refine ⟨(if 0.5 ≤ memory_util w ∧ memory_util w < 0.75 then "${3}"
        else if 0.75 ≤ memory_util w ∧ memory_util w ≤ 1.0 then "${1}" else "") ++
        format2f (memory_util w * 100) ++ "% (",
      "/" ++ pyStr (get_human_readable_byte_count w.max_memory) ++ ")", ?_⟩
    simp only [format_mem, mem_cell_text, ghrbc_none hw, pyStr]
    simp only [string_append_assoc]

/-- Witness for C10 at a concrete byte count and worker. -/
theorem format_bytes_none_spec_witness :
    get_human_readable_byte_count 0 = none ∧
      ∃ a b : String, format_mem smallWorker = a ++ "None" ++ b :=
  ⟨format_bytes_none_spec.1 0 (by norm_num),
   format_bytes_none_spec.2.2 smallWorker (by decide)⟩
